import Mathlib

/-!
Shallow embedding of the patent-alert lifecycle subsystem
(`src/backend/src/services/alert_service.py`,
`src/backend/src/services/alert_scheduler.py`, and the request-validation
models of `src/backend/src/routes/alerts.py`).

Modelling conventions:
* Time is `Nat`, counted in days; `datetime.now()` calls made during one
  operation are modelled as the single instant `now` passed to that
  operation.  `timedelta(days = d)` is addition of `d`.
* Python floats (similarity scores and thresholds) are modelled as `ℚ`.
* `uuid.uuid4()` results are passed in as explicit `String` arguments.
* The Python dicts `self.alerts` / `self.notifications` are association
  lists in insertion order; `d[k] = v` replaces in place or appends, as
  CPython dicts do.
* The external matcher call `semantic_alerts.detect_similar_patents` is an
  input of `process_alert`, of type `Except String (List AlertResult)`:
  `.ok results` for a normal return, `.error e` for a raised exception.
  `process_alert` itself is a total function into a plain pair, mirroring
  the fact that the source absorbs every exception and never raises.
-/

namespace EurekaAlerts

/-- Embeds `AlertStatus` of alert_service.py. -/
inductive AlertStatus
  | active
  | paused
  | deleted
deriving DecidableEq, Repr

/-- Embeds `AlertFrequency` of alert_service.py. -/
inductive AlertFrequency
  | daily
  | weekly
  | monthly
deriving DecidableEq, Repr

/-- Embeds the `AlertResult` dataclass of agents/semantic_alerts.py. -/
structure AlertResult where
  id : String
  title : String
  similarity_score : ℚ
  document_type : String
  publication_date : String
  authors : List String
  institutions : List String
  abstract : String
  url : String
  alert_reason : String
deriving DecidableEq, Repr

/-- Embeds the `PatentAlert` dataclass of alert_service.py. -/
structure PatentAlert where
  id : String
  user_id : String
  research_title : String
  research_abstract : String
  similarity_threshold : ℚ
  lookback_days : Int
  frequency : AlertFrequency
  status : AlertStatus
  created_at : Nat
  updated_at : Nat
  last_run : Option Nat
  next_run : Option Nat
  notification_count : Nat
deriving DecidableEq, Repr

/-- Embeds the `AlertNotification` dataclass of alert_service.py. -/
structure AlertNotification where
  id : String
  alert_id : String
  alert_results : List AlertResult
  created_at : Nat
  read : Bool
deriving DecidableEq, Repr

/-- Lookup in an insertion-ordered association list (Python `dict.get`). -/
def dictLookup : List (String × α) → String → Option α
  | [], _ => none
  | (k, v) :: rest, key => if k = key then some v else dictLookup rest key

/-- Store into an insertion-ordered association list (Python `d[k] = v`):
replace in place when the key exists, append otherwise. -/
def dictInsert : List (String × α) → String → α → List (String × α)
  | [], key, v => [(key, v)]
  | (k, w) :: rest, key, v =>
      if k = key then (key, v) :: rest else (k, w) :: dictInsert rest key v

/-- Values of the dict in insertion order (Python `dict.values()`). -/
def dictValues (m : List (String × α)) : List α :=
  m.map (fun p => p.2)

/-- Embeds the mutable state of `AlertService.__init__`: the two in-memory
dicts `self.alerts` and `self.notifications`. -/
structure AlertServiceState where
  alerts : List (String × PatentAlert)
  notifications : List (String × AlertNotification)
deriving DecidableEq, Repr

/-- The freshly constructed service state: both dicts empty. -/
def emptyState : AlertServiceState :=
  { alerts := [], notifications := [] }

/-- Embeds `AlertService._calculate_next_run`: daily adds 1 day, weekly adds
`timedelta(weeks=1)` = 7 days, monthly adds 30 days.  The Python `else`
branch (default weekly) is unreachable for the three-valued enum. -/
def calculate_next_run (frequency : AlertFrequency) (from_time : Nat) : Nat :=
  match frequency with
  | .daily => from_time + 1
  | .weekly => from_time + 7
  | .monthly => from_time + 30

/-- The spec's `period(frequency)` in days: daily 1, weekly 7, monthly 30. -/
def period (frequency : AlertFrequency) : Nat :=
  match frequency with
  | .daily => 1
  | .weekly => 7
  | .monthly => 30

/-- Embeds `AlertService.create_alert`.  Note that the source performs no
validation of threshold, lookback or frequency: it builds the alert and
stores it unconditionally (its `try` body cannot raise on these inputs). -/
def create_alert (s : AlertServiceState) (alert_id : String) (now : Nat)
    (user_id research_title research_abstract : String)
    (similarity_threshold : ℚ) (lookback_days : Int)
    (frequency : AlertFrequency) : AlertServiceState × PatentAlert :=
  let alert : PatentAlert :=
    { id := alert_id
      user_id := user_id
      research_title := research_title
      research_abstract := research_abstract
      similarity_threshold := similarity_threshold
      lookback_days := lookback_days
      frequency := frequency
      status := .active
      created_at := now
      updated_at := now
      last_run := none
      next_run := some (calculate_next_run frequency now)
      notification_count := 0 }
  ({ s with alerts := dictInsert s.alerts alert_id alert }, alert)

/-- Embeds `AlertService.get_alert`: the stored alert when it exists, belongs
to the requesting user, and is not soft-deleted; `None` otherwise. -/
def get_alert (s : AlertServiceState) (alert_id user_id : String) :
    Option PatentAlert :=
  match dictLookup s.alerts alert_id with
  | some alert =>
      if alert.user_id = user_id ∧ alert.status ≠ AlertStatus.deleted then
        some alert
      else
        none
  | none => none

/-- Embeds `AlertService.update_alert`.  The source assigns each supplied
field in sequence on the fetched alert object; the fields written are
pairwise distinct, so the sequence equals this single record update.
Supplying a frequency additionally recomputes `next_run` from `now`;
`updated_at` is always set to `now` at the end. -/
def update_alert (s : AlertServiceState) (alert_id user_id : String)
    (now : Nat) (research_title research_abstract : Option String)
    (similarity_threshold : Option ℚ) (lookback_days : Option Int)
    (frequency : Option AlertFrequency) (status : Option AlertStatus) :
    AlertServiceState × Option PatentAlert :=
  match get_alert s alert_id user_id with
  | none => (s, none)
  | some alert =>
      let updated : PatentAlert :=
        { alert with
          research_title := research_title.getD alert.research_title
          research_abstract := research_abstract.getD alert.research_abstract
          similarity_threshold :=
            similarity_threshold.getD alert.similarity_threshold
          lookback_days := lookback_days.getD alert.lookback_days
          frequency := frequency.getD alert.frequency
          next_run := match frequency with
            | some f => some (calculate_next_run f now)
            | none => alert.next_run
          status := status.getD alert.status
          updated_at := now }
      ({ s with alerts := dictInsert s.alerts alert_id updated }, some updated)

/-- Embeds `AlertService.delete_alert`: soft delete through `get_alert`;
the record stays in the dict with status `deleted`. -/
def delete_alert (s : AlertServiceState) (alert_id user_id : String)
    (now : Nat) : AlertServiceState × Bool :=
  match get_alert s alert_id user_id with
  | none => (s, false)
  | some alert =>
      let a' : PatentAlert :=
        { alert with status := .deleted, updated_at := now }
      ({ s with alerts := dictInsert s.alerts alert_id a' }, true)

/-- Embeds `AlertService.process_alert`.  `matcher` is the behaviour of the
`detect_similar_patents` call; every branch, the raising one included,
returns normally — the source catches all exceptions, advances the
bookkeeping fields and returns `None` instead of re-raising. -/
def process_alert (s : AlertServiceState) (alert : PatentAlert)
    (notification_id : String) (now : Nat)
    (matcher : Except String (List AlertResult)) :
    AlertServiceState × Option AlertNotification :=
  if alert.status ≠ AlertStatus.active then
    (s, none)
  else
    match matcher with
    | .error _ =>
        let a' : PatentAlert :=
          { alert with
            last_run := some now
            next_run := some (calculate_next_run alert.frequency now)
            updated_at := now }
        ({ s with alerts := dictInsert s.alerts alert.id a' }, none)
    | .ok alert_results =>
        if alert_results ≠ [] then
          let notification : AlertNotification :=
            { id := notification_id
              alert_id := alert.id
              alert_results := alert_results
              created_at := now
              read := false }
          let a' : PatentAlert :=
            { alert with
              last_run := some now
              next_run := some (calculate_next_run alert.frequency now)
              notification_count := alert.notification_count + 1
              updated_at := now }
          ({ s with
              alerts := dictInsert s.alerts alert.id a'
              notifications :=
                dictInsert s.notifications notification_id notification },
            some notification)
        else
          let a' : PatentAlert :=
            { alert with
              last_run := some now
              next_run := some (calculate_next_run alert.frequency now)
              updated_at := now }
          ({ s with alerts := dictInsert s.alerts alert.id a' }, none)

/-- Embeds `AlertService.get_alerts`: the user's non-deleted alerts, most
recently created first (`sorted(..., reverse=True)` on `created_at`). -/
def get_alerts (s : AlertServiceState) (user_id : String) :
    List PatentAlert :=
  ((dictValues s.alerts).filter
      (fun a => decide (a.user_id = user_id ∧ a.status ≠ AlertStatus.deleted))
    ).mergeSort (fun a b => decide (b.created_at ≤ a.created_at))

/-- Embeds `AlertService.get_notifications`: notifications whose owning alert
(any status, the soft-deleted included — the source filters only on
`user_id`) belongs to the user, most recent first, capped at `limit`. -/
def get_notifications (s : AlertServiceState) (user_id : String)
    (limit : Nat) : List AlertNotification :=
  let user_alert_ids : List String :=
    ((dictValues s.alerts).filter (fun a => decide (a.user_id = user_id))).map
      (fun a => a.id)
  let user_notifications : List AlertNotification :=
    (dictValues s.notifications).filter
      (fun n => decide (n.alert_id ∈ user_alert_ids))
  (user_notifications.mergeSort
      (fun a b => decide (b.created_at ≤ a.created_at))).take limit

/-- Embeds `AlertService.mark_notification_read`: ownership is checked
through the owning alert's `user_id` only — its status is not consulted. -/
def mark_notification_read (s : AlertServiceState)
    (notification_id user_id : String) : AlertServiceState × Bool :=
  match dictLookup s.notifications notification_id with
  | none => (s, false)
  | some notification =>
      match dictLookup s.alerts notification.alert_id with
      | none => (s, false)
      | some alert =>
          if alert.user_id ≠ user_id then
            (s, false)
          else
            ({ s with
                notifications := dictInsert s.notifications notification_id
                  { notification with read := true } }, true)

/-- Embeds `AlertService.get_alerts_due_for_processing`: active alerts whose
`next_run` is set and has passed. -/
def get_alerts_due_for_processing (s : AlertServiceState) (now : Nat) :
    List PatentAlert :=
  (dictValues s.alerts).filter
    (fun a => decide (a.status = AlertStatus.active) &&
      match a.next_run with
      | some t => decide (t ≤ now)
      | none => false)

/-- Embeds the batch slicing of `AlertScheduler._process_due_alerts`
(`for i in range(0, len(due_alerts), batch_size): due_alerts[i:i+batch_size]`):
successive slices of length `B` of the list, in order. -/
def chunked (B : Nat) : List α → List (List α)
  | [] => []
  | x :: xs => (x :: xs.take (B - 1)) :: chunked B (xs.drop (B - 1))
termination_by l => l.length
decreasing_by
  simp
  omega

/-- Embeds `AlertScheduler._process_alert_batch` with the per-alert effect
abstracted as `f`: every alert of the batch is processed once.  (The source
fans the batch out with `asyncio.gather` and awaits it whole; the fold fixes
one of the admissible orders.) -/
def process_alert_batch (f : σ → PatentAlert → σ) (s : σ)
    (alerts : List PatentAlert) : σ :=
  alerts.foldl f s

/-- Embeds the batching loop of `AlertScheduler._process_due_alerts` with the
per-alert effect abstracted as `f`: the due list is cut into slices of the
hard-coded `batch_size = 5` and the batches are run strictly one after the
other (`await self._process_alert_batch(batch)` completes before the next
slice is taken). -/
def process_due_alerts (f : σ → PatentAlert → σ) (s : σ)
    (due_alerts : List PatentAlert) : σ :=
  (chunked 5 due_alerts).foldl (process_alert_batch f) s

/-- Embeds the validation of `CreateAlertRequest` in routes/alerts.py: the
pydantic field bounds (`min_length`/`max_length` on the texts,
`ge=0.0, le=1.0` on the threshold, `ge=1, le=365` on the lookback) and the
frequency pattern `^(daily|weekly|monthly)$`.  A request violating any of
them is rejected with a validation error before `create_alert` is called. -/
def validCreateAlertRequest (research_title research_abstract : String)
    (similarity_threshold : ℚ) (lookback_days : Int)
    (frequency : String) : Prop :=
  1 ≤ research_title.length ∧ research_title.length ≤ 500 ∧
  10 ≤ research_abstract.length ∧ research_abstract.length ≤ 5000 ∧
  0 ≤ similarity_threshold ∧ similarity_threshold ≤ 1 ∧
  1 ≤ lookback_days ∧ lookback_days ≤ 365 ∧
  (frequency = "daily" ∨ frequency = "weekly" ∨ frequency = "monthly")

/-- One externally triggerable mutation of the service state, with the
nondeterministic inputs (generated ids, clock readings, matcher behaviour)
recorded as data. -/
inductive AlertOp
  | create (alert_id : String) (now : Nat)
      (user_id research_title research_abstract : String)
      (similarity_threshold : ℚ) (lookback_days : Int)
      (frequency : AlertFrequency)
  | update (alert_id user_id : String) (now : Nat)
      (research_title research_abstract : Option String)
      (similarity_threshold : Option ℚ) (lookback_days : Option Int)
      (frequency : Option AlertFrequency) (status : Option AlertStatus)
  | delete (alert_id user_id : String) (now : Nat)
  | process (alert_id notification_id : String) (now : Nat)
      (matcher : Except String (List AlertResult))

/-- Effect of one operation on the service state.  `process` is invoked by
its callers (scheduler and routes) on an alert fetched from the store; an
unknown id is a no-op. -/
def stepOp (s : AlertServiceState) : AlertOp → AlertServiceState
  | .create alert_id now user_id rt ra thr lb f =>
      (create_alert s alert_id now user_id rt ra thr lb f).1
  | .update alert_id user_id now rt ra thr lb f st =>
      (update_alert s alert_id user_id now rt ra thr lb f st).1
  | .delete alert_id user_id now => (delete_alert s alert_id user_id now).1
  | .process alert_id notification_id now matcher =>
      match dictLookup s.alerts alert_id with
      | some alert => (process_alert s alert notification_id now matcher).1
      | none => s

/-- States reachable from the freshly constructed service by any sequence of
operations. -/
inductive Reachable : AlertServiceState → Prop
  | init : Reachable emptyState
  | step (s : AlertServiceState) (op : AlertOp) :
      Reachable s → Reachable (stepOp s op)

/-- A concrete alert used by the closed witness and counterexample
statements. -/
def sampleAlert : PatentAlert :=
  { id := "a1"
    user_id := "u1"
    research_title := "graphene sensors"
    research_abstract := "a study of graphene-based gas sensors"
    similarity_threshold := 3 / 4
    lookback_days := 30
    frequency := .weekly
    status := .active
    created_at := 0
    updated_at := 0
    last_run := none
    next_run := some 7
    notification_count := 0 }

/-- A concrete matcher result used by the closed witness statements. -/
def sampleResult : AlertResult :=
  { id := "p9"
    title := "gas sensing device"
    similarity_score := 4 / 5
    document_type := "patent"
    publication_date := "2024-01-02"
    authors := ["a b"]
    institutions := ["inst"]
    abstract := "a gas sensing device"
    url := "https://example.org/p9"
    alert_reason := "high similarity" }

/-- A concrete notification attached to `sampleAlert`. -/
def sampleNotification : AlertNotification :=
  { id := "n1"
    alert_id := "a1"
    alert_results := [sampleResult]
    created_at := 3
    read := false }

/-- A concrete service state holding `sampleAlert`. -/
def sampleState : AlertServiceState :=
  { alerts := [("a1", sampleAlert)], notifications := [] }

/-- The alert produced by updating `sampleAlert` with only a daily
frequency at time 5. -/
def sampleUpdatedAlert : PatentAlert :=
  { sampleAlert with
    frequency := .daily
    next_run := some 6
    updated_at := 5 }

/-- A concrete state whose only alert is soft-deleted and owns one
notification. -/
def deletedAlertState : AlertServiceState :=
  { alerts := [("a1", { sampleAlert with status := .deleted })]
    notifications := [("n1", sampleNotification)] }

/-! ### Helper lemmas about the store and the batch slicing -/

theorem dictLookup_insert (m : List (String × α)) (key k : String) (v : α) :
    dictLookup (dictInsert m key v) k =
      if key = k then some v else dictLookup m k := by
  induction m with
  | nil => simp [dictInsert, dictLookup]
  | cons p rest ih =>
      obtain ⟨pk, pv⟩ := p
      by_cases h1 : pk = key <;> by_cases h2 : key = k <;>
        simp_all [dictInsert, dictLookup]

theorem mem_dictValues_of_lookup (m : List (String × α)) (k : String) (v : α)
    (h : dictLookup m k = some v) : v ∈ dictValues m := by
  induction m with
  | nil => simp [dictLookup] at h
  | cons p rest ih =>
      obtain ⟨pk, pv⟩ := p
      simp only [dictLookup] at h
      by_cases h1 : pk = k
      · rw [if_pos h1] at h
        simp [dictValues, Option.some_inj.mp h]
      · rw [if_neg h1] at h
        simp [dictValues] at ih ⊢
        exact Or.inr (ih h)

theorem calculate_next_run_eq (f : AlertFrequency) (t : Nat) :
    calculate_next_run f t = t + period f := by
  cases f <;> rfl

theorem get_alert_eq_some (s : AlertServiceState) (alert_id user_id : String)
    (a : PatentAlert) :
    get_alert s alert_id user_id = some a ↔
      dictLookup s.alerts alert_id = some a ∧ a.user_id = user_id ∧
        a.status ≠ AlertStatus.deleted := by
  constructor
  · intro h1
    cases h : dictLookup s.alerts alert_id with
    | none => simp [get_alert, h] at h1
    | some b =>
        simp only [get_alert, h] at h1
        split_ifs at h1 with hc
        cases Option.some_inj.mp h1
        exact ⟨rfl, hc⟩
  · rintro ⟨h1, h2, h3⟩
    simp [get_alert, h1, h2, h3]

theorem chunked_flatten (B : Nat) : ∀ l : List α, (chunked B l).flatten = l
  | [] => by simp [chunked]
  | x :: xs => by
      simp only [chunked, List.flatten_cons,
        chunked_flatten B (xs.drop (B - 1))]
      simp [List.take_append_drop]
termination_by l => l.length
decreasing_by
  simp
  omega

theorem chunked_length (B : Nat) (hB : 0 < B) :
    ∀ l : List α, (chunked B l).length = (l.length + B - 1) / B
  | [] => by
      simp only [chunked, List.length_nil]
      rw [Nat.div_eq_of_lt (by omega)]
  | x :: xs => by
      simp only [chunked, List.length_cons,
        chunked_length B hB (xs.drop (B - 1))]
      simp only [List.length_drop]
      have hr : xs.length + 1 + B - 1 = xs.length + B := by omega
      rw [hr, Nat.add_div_right _ hB]
      by_cases hc : B - 1 ≤ xs.length
      · have h1 : xs.length - (B - 1) + B - 1 = xs.length := by omega
        rw [h1]
      · have h1 : xs.length - (B - 1) + B - 1 = B - 1 := by omega
        rw [h1, Nat.div_eq_of_lt (by omega),
          Nat.div_eq_of_lt (by omega)]
termination_by l => l.length
decreasing_by
  simp
  omega

theorem chunked_batch_le (B : Nat) (hB : 0 < B) :
    ∀ l : List α, ∀ c ∈ chunked B l, c.length ≤ B
  | [] => by simp [chunked]
  | x :: xs => by
      intro c hc
      simp only [chunked] at hc
      rcases List.mem_cons.mp hc with h | h
      · subst h
        simp only [List.length_cons, List.length_take]
        omega
      · exact chunked_batch_le B hB (xs.drop (B - 1)) c h
termination_by l => l.length
decreasing_by
  simp
  omega

theorem chunked_foldl (B : Nat) (f : σ → α → σ) :
    ∀ (l : List α) (s0 : σ),
      (chunked B l).foldl (fun s c => c.foldl f s) s0 = l.foldl f s0
  | [], s0 => by simp [chunked]
  | x :: xs, s0 => by
      simp only [chunked, List.foldl_cons,
        chunked_foldl B f (xs.drop (B - 1))]
      rw [← List.foldl_append]
      congr 1
      simp [List.take_append_drop]
termination_by l _ => l.length
decreasing_by
  simp
  omega

theorem reachable_next_run_isSome (s : AlertServiceState) (h : Reachable s) :
    ∀ k a, dictLookup s.alerts k = some a → a.next_run.isSome := by
  induction h with
  | init =>
      intro k a hk
      simp [emptyState, dictLookup] at hk
  | step s op hs ih =>
      intro k a hk
      cases op with
      | create alert_id now user_id rt ra thr lb f =>
          simp only [stepOp, create_alert] at hk
          rw [dictLookup_insert] at hk
          split at hk
          · cases Option.some_inj.mp hk
            rfl
          · exact ih k a hk
      | update alert_id user_id now rt ra thr lb fr st =>
          simp only [stepOp, update_alert] at hk
          cases hg : get_alert s alert_id user_id with
          | none =>
              rw [hg] at hk
              exact ih k a hk
          | some b =>
              rw [hg] at hk
              simp only at hk
              rw [dictLookup_insert] at hk
              split at hk
              · cases Option.some_inj.mp hk
                cases fr with
                | none =>
                    have hb := ((get_alert_eq_some s alert_id user_id b).mp hg).1
                    exact ih alert_id b hb
                | some f => rfl
              · exact ih k a hk
      | delete alert_id user_id now =>
          simp only [stepOp, delete_alert] at hk
          cases hg : get_alert s alert_id user_id with
          | none =>
              rw [hg] at hk
              exact ih k a hk
          | some b =>
              rw [hg] at hk
              simp only at hk
              rw [dictLookup_insert] at hk
              split at hk
              · cases Option.some_inj.mp hk
                have hb := ((get_alert_eq_some s alert_id user_id b).mp hg).1
                exact ih alert_id b hb
              · exact ih k a hk
      | process alert_id notification_id now matcher =>
          simp only [stepOp] at hk
          cases hg : dictLookup s.alerts alert_id with
          | none =>
              rw [hg] at hk
              exact ih k a hk
          | some b =>
              rw [hg] at hk
              by_cases hact : b.status ≠ AlertStatus.active
              · simp only [process_alert, if_pos hact] at hk
                exact ih k a hk
              · simp only [process_alert, if_neg hact] at hk
                cases matcher with
                | error e =>
                    simp only at hk
                    rw [dictLookup_insert] at hk
                    split at hk
                    · cases Option.some_inj.mp hk
                      rfl
                    · exact ih k a hk
                | ok results =>
                    by_cases hres : results ≠ []
                    · simp only [if_pos hres] at hk
                      rw [dictLookup_insert] at hk
                      split at hk
                      · cases Option.some_inj.mp hk
                        rfl
                      · exact ih k a hk
                    · simp only [if_neg hres] at hk
                      rw [dictLookup_insert] at hk
                      split at hk
                      · cases Option.some_inj.mp hk
                        rfl
                      · exact ih k a hk

/-! ### Claim theorems -/

/-- C1 counterexample: with threshold 2 ∉ [0,1] and lookback −3 ≤ 0,
`AlertService.create_alert` does not fail — it stores the alert, refuting
"the call fails with a ValidationError and no alert is stored". -/
theorem C1_create_alert_stores_invalid_input :
    (¬ ((0 : ℚ) ≤ 2 ∧ (2 : ℚ) ≤ 1) ∧ (-3 : Int) ≤ 0) ∧
    dictLookup (create_alert emptyState "a1" 0 "u1" "graphene sensors"
        "a study of graphene-based gas sensors" 2 (-3)
        AlertFrequency.weekly).1.alerts "a1" =
      some (create_alert emptyState "a1" 0 "u1" "graphene sensors"
        "a study of graphene-based gas sensors" 2 (-3)
        AlertFrequency.weekly).2 := by
  refine ⟨⟨fun hx => ?_, by norm_num⟩, rfl⟩
  have := hx.2
  norm_num at this

/-- C1 amended: `AlertService.create_alert` itself performs no validation and
always stores the alert it builds; the bounds threshold ∈ [0,1], lookback ≥ 1
and frequency ∈ {daily, weekly, monthly} are enforced by the HTTP layer's
`CreateAlertRequest` model, which rejects any such out-of-range request with
a validation error before `create_alert` is reached. -/
theorem C1_validation_at_request_layer :
    (∀ (s : AlertServiceState) (alert_id : String) (now : Nat)
        (user_id rt ra : String) (thr : ℚ) (lb : Int) (freq : AlertFrequency),
      dictLookup (create_alert s alert_id now user_id rt ra thr lb
          freq).1.alerts alert_id =
        some (create_alert s alert_id now user_id rt ra thr lb freq).2) ∧
    (∀ (rt ra : String) (thr : ℚ) (lb : Int) (fr : String),
      (thr < 0 ∨ 1 < thr ∨ lb ≤ 0 ∨
        (fr ≠ "daily" ∧ fr ≠ "weekly" ∧ fr ≠ "monthly")) →
      ¬ validCreateAlertRequest rt ra thr lb fr) := by
  constructor
  · intro s alert_id now user_id rt ra thr lb freq
    simp [create_alert, dictLookup_insert]
  · rintro rt ra thr lb fr hbad hv
    obtain ⟨-, -, -, -, h5, h6, h7, -, h9⟩ := hv
    rcases hbad with h | h | h | ⟨ha, hb, hc⟩
    · linarith
    · linarith
    · omega
    · rcases h9 with h9 | h9 | h9
      · exact ha h9
      · exact hb h9
      · exact hc h9

/-- C1 witness: the request-layer validation indeed rejects a concrete
request with threshold 2, applying the amended theorem at that input. -/
theorem C1_validation_witness :
    ¬ validCreateAlertRequest "graphene sensors"
      "a study of graphene-based gas sensors" 2 30 "weekly" :=
  C1_validation_at_request_layer.2 "graphene sensors"
    "a study of graphene-based gas sensors" 2 30 "weekly"
    (Or.inr (Or.inl (by norm_num)))

/-- C2: `process_alert` never raises — its embedding is a total function
into an ordinary pair for every matcher behaviour, the raising one
(`Except.error`) included — and when the matcher raises on an active alert
it returns `none` and stores the alert with `last_run = now` and
`next_run = last_run + period(frequency)`. -/
theorem C2_process_alert_absorbs_matcher_failure
    (s : AlertServiceState) (alert : PatentAlert) (notification_id : String)
    (now : Nat) (e : String) :
    (process_alert s alert notification_id now (Except.error e)).2 = none ∧
    (alert.status = AlertStatus.active →
      (process_alert s alert notification_id now (Except.error e)).1 =
        { s with
          alerts :=
            dictInsert s.alerts alert.id
              { alert with
                last_run := some now
                next_run := some (now + period alert.frequency)
                updated_at := now } }) := by
  constructor
  · by_cases h : alert.status = AlertStatus.active
    · simp [process_alert, h]
    · simp [process_alert, h]
  · intro h
    simp [process_alert, h, calculate_next_run_eq]

/-- C2 witness: the theorem applied to the concrete `sampleAlert` and a
concrete matcher exception. -/
theorem C2_witness :
    (process_alert sampleState sampleAlert "n1" 3 (Except.error "down")).2 =
      none ∧
    (sampleAlert.status = AlertStatus.active →
      (process_alert sampleState sampleAlert "n1" 3
          (Except.error "down")).1 =
        { sampleState with
          alerts :=
            dictInsert sampleState.alerts sampleAlert.id
              { sampleAlert with
                last_run := some 3
                next_run := some (3 + period sampleAlert.frequency)
                updated_at := 3 } }) :=
  C2_process_alert_absorbs_matcher_failure sampleState sampleAlert "n1" 3
    "down"

/-- C3: on an active alert whose matcher returns a non-empty list of K
matches, `process_alert` returns the notification holding exactly those K
results, and stores the alert with `notification_count` incremented by one
and `next_run` exactly one period after the new `last_run = now`. -/
theorem C3_process_alert_nonempty_matches
    (s : AlertServiceState) (alert : PatentAlert) (notification_id : String)
    (now : Nat) (results : List AlertResult)
    (hactive : alert.status = AlertStatus.active) (hK : results ≠ []) :
    (process_alert s alert notification_id now (Except.ok results)).2 =
      some { id := notification_id, alert_id := alert.id,
             alert_results := results, created_at := now, read := false } ∧
    ((process_alert s alert notification_id now (Except.ok results)).2.map
        (fun n => n.alert_results.length)) = some results.length ∧
    dictLookup (process_alert s alert notification_id now
        (Except.ok results)).1.alerts alert.id =
      some { alert with
             last_run := some now
             next_run := some (now + period alert.frequency)
             notification_count := alert.notification_count + 1
             updated_at := now } := by
  refine ⟨?_, ?_, ?_⟩ <;>
    simp [process_alert, hactive, hK, dictLookup_insert,
      calculate_next_run_eq]

/-- C3 witness: the theorem applied to `sampleAlert` with a one-element
match list. -/
theorem C3_witness :
    (process_alert sampleState sampleAlert "n1" 3
        (Except.ok [sampleResult])).2 =
      some { id := "n1", alert_id := sampleAlert.id,
             alert_results := [sampleResult], created_at := 3,
             read := false } ∧
    ((process_alert sampleState sampleAlert "n1" 3
        (Except.ok [sampleResult])).2.map
        (fun n => n.alert_results.length)) = some [sampleResult].length ∧
    dictLookup (process_alert sampleState sampleAlert "n1" 3
        (Except.ok [sampleResult])).1.alerts sampleAlert.id =
      some { sampleAlert with
             last_run := some 3
             next_run := some (3 + period sampleAlert.frequency)
             notification_count := sampleAlert.notification_count + 1
             updated_at := 3 } :=
  C3_process_alert_nonempty_matches sampleState sampleAlert "n1" 3
    [sampleResult] rfl (by simp)

/-- C5: on an alert whose status is not active, `process_alert` returns
`none`, leaves the service state exactly as it was, and never consults the
matcher — its result is the same for every matcher behaviour. -/
theorem C5_process_alert_inactive_untouched
    (s : AlertServiceState) (alert : PatentAlert) (notification_id : String)
    (now : Nat) (m1 m2 : Except String (List AlertResult))
    (h : alert.status ≠ AlertStatus.active) :
    process_alert s alert notification_id now m1 = (s, none) ∧
    process_alert s alert notification_id now m1 =
      process_alert s alert notification_id now m2 := by
  constructor <;> simp [process_alert, h]

/-- C5 witness: the theorem applied to a paused copy of `sampleAlert`, with
one matcher that raises and one that returns a match. -/
theorem C5_witness :
    process_alert sampleState { sampleAlert with status := .paused } "n1" 3
        (Except.error "down") = (sampleState, none) ∧
    process_alert sampleState { sampleAlert with status := .paused } "n1" 3
        (Except.error "down") =
      process_alert sampleState { sampleAlert with status := .paused } "n1" 3
        (Except.ok [sampleResult]) :=
  C5_process_alert_inactive_untouched sampleState
    { sampleAlert with status := .paused } "n1" 3 (Except.error "down")
    (Except.ok [sampleResult]) (by simp)

/-- C4 counterexample: the invariant "whenever `next_run` is set it equals
`last_run + period(frequency)`" fails on a reachable state — the state
produced by a single `create_alert` has `next_run` set while `last_run` is
still `None`. -/
theorem C4_invariant_fails_after_create :
    ¬ (∀ s : AlertServiceState, Reachable s →
        ∀ k a, dictLookup s.alerts k = some a →
        ∀ t, a.next_run = some t →
        ∃ l, a.last_run = some l ∧ t = l + period a.frequency) := by
  intro h
  obtain ⟨l, hl, -⟩ :=
    h (stepOp emptyState
        (AlertOp.create "a1" 0 "u1" "graphene sensors"
          "a study of graphene-based gas sensors" (3 / 4) 30
          AlertFrequency.weekly))
      (Reachable.step _ _ Reachable.init) "a1"
      (create_alert emptyState "a1" 0 "u1" "graphene sensors"
        "a study of graphene-based gas sensors" (3 / 4) 30
        AlertFrequency.weekly).2
      rfl 7 rfl
  exact Option.noConfusion hl

/-- C4 amended: in every reachable state `next_run` is always set, and every
operation that writes it anchors it exactly one period after the operation's
current time: `create_alert` sets `next_run = created_at + period`, an
`update_alert` that supplies a frequency sets `next_run = now + period`, and
`process_alert` on an active alert sets `last_run = now` and
`next_run = last_run + period` — but after a create (where `last_run` is
`None`) or a frequency update, `next_run` is not anchored on `last_run`. -/
theorem C4_next_run_anchoring :
    (∀ s : AlertServiceState, Reachable s →
      ∀ k a, dictLookup s.alerts k = some a → a.next_run.isSome) ∧
    (∀ (s : AlertServiceState) (alert_id : String) (now : Nat)
        (user_id rt ra : String) (thr : ℚ) (lb : Int) (f : AlertFrequency),
      ((create_alert s alert_id now user_id rt ra thr lb f).2).next_run =
        some (now + period f) ∧
      ((create_alert s alert_id now user_id rt ra thr lb f).2).created_at =
        now ∧
      ((create_alert s alert_id now user_id rt ra thr lb f).2).last_run =
        none) ∧
    (∀ (s : AlertServiceState) (alert_id user_id : String) (now : Nat)
        (rt ra : Option String) (thr : Option ℚ) (lb : Option Int)
        (f : AlertFrequency) (st : Option AlertStatus) (a' : PatentAlert),
      (update_alert s alert_id user_id now rt ra thr lb (some f) st).2 =
        some a' →
      a'.next_run = some (now + period f)) ∧
    (∀ (s : AlertServiceState) (alert : PatentAlert)
        (notification_id : String) (now : Nat)
        (matcher : Except String (List AlertResult)) (a' : PatentAlert),
      alert.status = AlertStatus.active →
      dictLookup (process_alert s alert notification_id now
          matcher).1.alerts alert.id = some a' →
      a'.last_run = some now ∧
        a'.next_run = some (now + period a'.frequency)) := by
  refine ⟨reachable_next_run_isSome, ?_, ?_, ?_⟩
  · intro s alert_id now user_id rt ra thr lb f
    exact ⟨by simp [create_alert, calculate_next_run_eq], rfl, rfl⟩
  · intro s alert_id user_id now rt ra thr lb f st a' h
    cases hg : get_alert s alert_id user_id with
    | none => simp [update_alert, hg] at h
    | some b =>
        simp only [update_alert, hg] at h
        cases Option.some_inj.mp h
        simp [calculate_next_run_eq]
  · intro s alert notification_id now matcher a' hactive h
    simp only [process_alert, hactive, ne_eq, not_true_eq_false,
      if_false] at h
    cases matcher with
    | error e =>
        simp only [dictLookup_insert, if_pos rfl] at h
        cases Option.some_inj.mp h
        exact ⟨rfl, by simp [calculate_next_run_eq]⟩
    | ok results =>
        by_cases hres : results ≠ []
        · simp only [if_pos hres, dictLookup_insert, if_pos rfl] at h
          cases Option.some_inj.mp h
          exact ⟨rfl, by simp [calculate_next_run_eq]⟩
        · simp only [if_neg hres, dictLookup_insert, if_pos rfl] at h
          cases Option.some_inj.mp h
          exact ⟨rfl, by simp [calculate_next_run_eq]⟩

/-- C4 witness: the anchoring theorem applied at concrete inputs — a
frequency update of `sampleAlert` to daily at time 5, and a processed run of
`sampleAlert` at time 3. -/
theorem C4_witness :
    (∀ a' : PatentAlert,
      (update_alert sampleState "a1" "u1" 5 none none none none
          (some AlertFrequency.daily) none).2 = some a' →
      a'.next_run = some (5 + period AlertFrequency.daily)) ∧
    (∀ a' : PatentAlert,
      dictLookup (process_alert sampleState sampleAlert "n1" 3
          (Except.error "down")).1.alerts sampleAlert.id = some a' →
      a'.last_run = some 3 ∧ a'.next_run = some (3 + period a'.frequency)) :=
  ⟨fun a' h => C4_next_run_anchoring.2.2.1 sampleState "a1" "u1" 5 none none
      none none AlertFrequency.daily none a' h,
   fun a' h => C4_next_run_anchoring.2.2.2 sampleState sampleAlert "n1" 3
      (Except.error "down") a' rfl h⟩

/-- C6: the scheduler's batching — slicing a due list of length N into
chunks of size B > 0 yields exactly ⌈N/B⌉ batches, each of size at most B,
whose concatenation in order is the original list; running the batches
strictly one after the other therefore processes every due alert exactly
once, in order, and with the source's `batch_size = 5` the whole cycle
equals one pass over the due list. -/
theorem C6_scheduler_batching {σ : Type} (B : Nat) (hB : 0 < B)
    (due_alerts : List PatentAlert) (f : σ → PatentAlert → σ) (s0 : σ) :
    (chunked B due_alerts).length = (due_alerts.length + B - 1) / B ∧
    (∀ batch ∈ chunked B due_alerts, batch.length ≤ B) ∧
    (chunked B due_alerts).flatten = due_alerts ∧
    process_due_alerts f s0 due_alerts = due_alerts.foldl f s0 :=
  ⟨chunked_length B hB due_alerts, chunked_batch_le B hB due_alerts,
   chunked_flatten B due_alerts, chunked_foldl 5 f due_alerts s0⟩

/-- C6 witness: the batching theorem at B = 5 on a concrete due list of
seven alerts, counting processed alerts with a concrete fold. -/
theorem C6_witness :
    (chunked 5 (List.replicate 7 sampleAlert)).length =
      ((List.replicate 7 sampleAlert).length + 5 - 1) / 5 ∧
    (∀ batch ∈ chunked 5 (List.replicate 7 sampleAlert),
      batch.length ≤ 5) ∧
    (chunked 5 (List.replicate 7 sampleAlert)).flatten =
      List.replicate 7 sampleAlert ∧
    process_due_alerts (fun n (_ : PatentAlert) => n + 1) 0
        (List.replicate 7 sampleAlert) =
      (List.replicate 7 sampleAlert).foldl
        (fun n (_ : PatentAlert) => n + 1) 0 :=
  C6_scheduler_batching 5 (by norm_num) (List.replicate 7 sampleAlert)
    (fun n (_ : PatentAlert) => n + 1) 0

/-- C7: deleting an owned, not-yet-deleted alert returns true and soft
deletes it — the record stays in the store with status deleted; a second
delete with the same arguments returns false and changes nothing, and a
subsequent `get_alert` by the owner returns `None`. -/
theorem C7_delete_idempotent (s : AlertServiceState) (alert_id u : String)
    (now now2 : Nat) (a : PatentAlert)
    (ha : dictLookup s.alerts alert_id = some a) (hu : a.user_id = u)
    (hst : a.status ≠ AlertStatus.deleted) :
    (delete_alert s alert_id u now).2 = true ∧
    dictLookup (delete_alert s alert_id u now).1.alerts alert_id =
      some { a with status := AlertStatus.deleted, updated_at := now } ∧
    (delete_alert (delete_alert s alert_id u now).1 alert_id u now2).2 =
      false ∧
    (delete_alert (delete_alert s alert_id u now).1 alert_id u now2).1 =
      (delete_alert s alert_id u now).1 ∧
    get_alert (delete_alert s alert_id u now).1 alert_id u = none := by
  have hg : get_alert s alert_id u = some a :=
    (get_alert_eq_some s alert_id u a).mpr ⟨ha, hu, hst⟩
  have hret : (delete_alert s alert_id u now).2 = true := by
    simp [delete_alert, hg]
  have hlook : dictLookup (delete_alert s alert_id u now).1.alerts alert_id =
      some { a with status := AlertStatus.deleted, updated_at := now } := by
    simp [delete_alert, hg, dictLookup_insert]
  generalize hs2 : (delete_alert s alert_id u now).1 = s2 at *
  have hget2 : get_alert s2 alert_id u = none := by
    simp [get_alert, hlook]
  refine ⟨hret, hlook, ?_, ?_, hget2⟩
  · simp [delete_alert, hget2]
  · simp [delete_alert, hget2]

/-- C7 witness: the theorem applied to `sampleState`, deleting the sample
alert at time 4 and again at time 6. -/
theorem C7_witness :
    (delete_alert sampleState "a1" "u1" 4).2 = true ∧
    dictLookup (delete_alert sampleState "a1" "u1" 4).1.alerts "a1" =
      some { sampleAlert with
             status := AlertStatus.deleted
             updated_at := 4 } ∧
    (delete_alert (delete_alert sampleState "a1" "u1" 4).1 "a1" "u1" 6).2 =
      false ∧
    (delete_alert (delete_alert sampleState "a1" "u1" 4).1 "a1" "u1" 6).1 =
      (delete_alert sampleState "a1" "u1" 4).1 ∧
    get_alert (delete_alert sampleState "a1" "u1" 4).1 "a1" "u1" = none :=
  C7_delete_idempotent sampleState "a1" "u1" 4 6 sampleAlert rfl rfl
    (by simp [sampleAlert])

/-- C8: `get_alert` never returns an alert that belongs to a different
owner — for any stored alert owned by `uB` and any requester `uA ≠ uB`, the
lookup returns `None`. -/
theorem C8_ownership_isolation (s : AlertServiceState)
    (alert_id uA uB : String) (a : PatentAlert)
    (ha : dictLookup s.alerts alert_id = some a) (hb : a.user_id = uB)
    (hne : uA ≠ uB) : get_alert s alert_id uA = none := by
  have : ¬ (a.user_id = uA ∧ a.status ≠ AlertStatus.deleted) := by
    rintro ⟨h1, -⟩
    exact hne (h1 ▸ hb).symm.symm
  simp [get_alert, ha, this]

/-- C8 witness: the theorem applied to `sampleState` with requester u2
against the sample alert owned by u1. -/
theorem C8_witness : get_alert sampleState "a1" "u2" = none :=
  C8_ownership_isolation sampleState "a1" "u2" "u1" sampleAlert rfl rfl
    (by simp)

/-- C9 counterexample: `updated_at` is an alert field that is not supplied
in the request, yet a title-only update at time 5 changes it — refuting
"every other alert field keeps its previous value". -/
theorem C9_updated_at_changes_unsupplied :
    ¬ (∀ a' : PatentAlert,
        (update_alert sampleState "a1" "u1" 5 (some "new title") none none
            none none none).2 = some a' →
        a'.updated_at = sampleAlert.updated_at) := by
  intro h
  have h2 := h _ rfl
  simp [sampleAlert] at h2

/-- C9 amended: an update of an existing alert changes exactly the supplied
fields; every other field keeps its previous value except `updated_at`,
which is always set to the current time, and — when a frequency is
supplied — `next_run`, which is recomputed from the current time rather than
from the previous anchor. -/
theorem C9_update_frame (s : AlertServiceState) (alert_id user_id : String)
    (now : Nat) (rt ra : Option String) (thr : Option ℚ) (lb : Option Int)
    (fr : Option AlertFrequency) (st : Option AlertStatus)
    (a a' : PatentAlert) (ha : get_alert s alert_id user_id = some a)
    (hr : (update_alert s alert_id user_id now rt ra thr lb fr st).2 =
      some a') :
    a'.id = a.id ∧
    a'.user_id = a.user_id ∧
    a'.research_title = rt.getD a.research_title ∧
    a'.research_abstract = ra.getD a.research_abstract ∧
    a'.similarity_threshold = thr.getD a.similarity_threshold ∧
    a'.lookback_days = lb.getD a.lookback_days ∧
    a'.frequency = fr.getD a.frequency ∧
    a'.status = st.getD a.status ∧
    a'.created_at = a.created_at ∧
    a'.last_run = a.last_run ∧
    a'.notification_count = a.notification_count ∧
    a'.next_run = (match fr with
      | some f => some (now + period f)
      | none => a.next_run) ∧
    a'.updated_at = now := by
  simp only [update_alert, ha] at hr
  cases Option.some_inj.mp hr
  refine ⟨rfl, rfl, rfl, rfl, rfl, rfl, rfl, rfl, rfl, rfl, rfl, ?_, rfl⟩
  cases fr <;> simp [calculate_next_run_eq]

/-- C9 witness: the amended frame theorem applied to a concrete update of
the sample alert that supplies only a daily frequency at time 5. -/
theorem C9_witness :
    sampleUpdatedAlert.id = sampleAlert.id ∧
    sampleUpdatedAlert.user_id = sampleAlert.user_id ∧
    sampleUpdatedAlert.research_title = sampleAlert.research_title ∧
    sampleUpdatedAlert.research_abstract = sampleAlert.research_abstract ∧
    sampleUpdatedAlert.similarity_threshold =
      sampleAlert.similarity_threshold ∧
    sampleUpdatedAlert.lookback_days = sampleAlert.lookback_days ∧
    sampleUpdatedAlert.frequency = AlertFrequency.daily ∧
    sampleUpdatedAlert.status = sampleAlert.status ∧
    sampleUpdatedAlert.created_at = sampleAlert.created_at ∧
    sampleUpdatedAlert.last_run = sampleAlert.last_run ∧
    sampleUpdatedAlert.notification_count =
      sampleAlert.notification_count ∧
    sampleUpdatedAlert.next_run =
      some (5 + period AlertFrequency.daily) ∧
    sampleUpdatedAlert.updated_at = 5 :=
  C9_update_frame sampleState "a1" "u1" 5 none none none none
    (some AlertFrequency.daily) none sampleAlert sampleUpdatedAlert rfl rfl

/-- C10: a notification whose owning alert is soft-deleted stays fully
reachable by the owner — it is still returned by `get_notifications`
(ownership there ignores the alert's status entirely) and
`mark_notification_read` still succeeds and marks it read. -/
theorem C10_notifications_survive_delete (s : AlertServiceState)
    (u notification_id : String) (a : PatentAlert) (n : AlertNotification)
    (limit : Nat)
    (ha : dictLookup s.alerts n.alert_id = some a)
    (haid : a.id = n.alert_id) (hu : a.user_id = u)
    (hdel : a.status = AlertStatus.deleted)
    (hn : dictLookup s.notifications notification_id = some n)
    (hlim : (dictValues s.notifications).length ≤ limit) :
    n ∈ get_notifications s u limit ∧
    (mark_notification_read s notification_id u).2 = true ∧
    dictLookup (mark_notification_read s notification_id u).1.notifications
        notification_id = some { n with read := true } := by
  refine ⟨?_, ?_, ?_⟩
  · simp only [get_notifications]
    rw [List.take_of_length_le]
    · rw [List.mem_mergeSort]
      refine List.mem_filter.mpr ⟨mem_dictValues_of_lookup _ _ _ hn, ?_⟩
      simp only [decide_eq_true_eq]
      exact List.mem_map.mpr
        ⟨a, List.mem_filter.mpr
          ⟨mem_dictValues_of_lookup _ _ _ ha, by simp [hu]⟩, haid⟩
    · rw [List.length_mergeSort]
      exact le_trans (List.length_filter_le _ _) hlim
  · simp [mark_notification_read, hn, ha, hu]
  · simp [mark_notification_read, hn, ha, hu, dictLookup_insert]

/-- C10 witness: the theorem applied to `deletedAlertState`, whose single
alert is soft-deleted and owns the sample notification. -/
theorem C10_witness :
    sampleNotification ∈ get_notifications deletedAlertState "u1" 50 ∧
    (mark_notification_read deletedAlertState "n1" "u1").2 = true ∧
    dictLookup (mark_notification_read deletedAlertState "n1"
        "u1").1.notifications "n1" =
      some { sampleNotification with read := true } :=
  C10_notifications_survive_delete deletedAlertState "u1" "n1"
    { sampleAlert with status := .deleted } sampleNotification 50 rfl rfl
    rfl rfl rfl (by simp [deletedAlertState, dictValues])

end EurekaAlerts
